import Mathlib

/-!
Verification development for the UQCS_Hackathon_2025 backend.

This file shallowly embeds the orchestration code of the repository
(`backend/app/services/veo3_service.py`, `backend/app/services/ai_processor.py`,
`backend/app/services/openai_service.py`, `backend/crud.py`, `backend/models.py`,
`backend/config.py`) and proves properties of the embedding.

JSON values flowing through the HTTP integrations are modelled by `JVal`.
Python dictionary access, attribute errors, truthiness and the
short-circuiting `or` operator are modelled explicitly; a Python exception
is an `Except.error` carrying a message.  HTTP requests are modelled by
their outcome (`Except String JVal`); time advances only at the polling
sleep, i.e. requests are instantaneous in the time model.
-/

/-- JSON-ish Python value: None, bool, int, str, list, dict. -/
inductive JVal where
  | null : JVal
  | bool : Bool → JVal
  | int : Int → JVal
  | str : String → JVal
  | arr : List JVal → JVal
  | obj : List (String × JVal) → JVal

/-- Python truthiness of a value. -/
def truthy : JVal → Bool
  | .null => false
  | .bool b => b
  | .int n => n != 0
  | .str s => s != ""
  | .arr xs => !xs.isEmpty
  | .obj fs => !fs.isEmpty

/-- ASCII lowercasing, the effect of Python `str.lower()` on the ASCII
status tokens this service compares against. -/
def strLower (s : String) : String := String.mk (s.data.map Char.toLower)

/-- Python `str(v)`.  Containers are rendered in an abbreviated form; the
claims never depend on the exact rendering of a nested container. -/
def pyStr : JVal → String
  | .null => "None"
  | .bool true => "True"
  | .bool false => "False"
  | .int n => toString n
  | .str s => s
  | .arr _ => "[\x2e\x2e\x2e]"
  | .obj _ => "\x7b\x2e\x2e\x2e\x7d"

/-- Python `d.get(k, default)`: works on a dict, raises `AttributeError`
on any other value. -/
def dictGet : JVal → String → JVal → Except String JVal
  | .obj fs, k, d => .ok ((fs.lookup k).getD d)
  | _, _, _ => .error "AttributeError: object has no attribute get"

/-- Python `d.get(k)` (default `None`). -/
def pyGet (v : JVal) (k : String) : Except String JVal :=
  dictGet v k .null

/-- Python `rd.get(k1, \x7b\x7d).get(k2)`. -/
def subGet (rd : JVal) (k1 k2 : String) : Except String JVal :=
  match dictGet rd k1 (.obj []) with
  | .error e => .error e
  | .ok d => pyGet d k2

/-- Python short-circuiting `a or b`: returns `a` when truthy, otherwise
evaluates and returns `b`; exceptions propagate. -/
def pyOr (a : Except String JVal) (b : Unit → Except String JVal) : Except String JVal :=
  match a with
  | .error e => .error e
  | .ok v => if truthy v then .ok v else b ()

/-- Python `s.lower()`: only defined on strings, raises otherwise. -/
def pyLower : JVal → Except String String
  | .str s => .ok (strLower s)
  | _ => .error "AttributeError: object has no attribute lower"

/-! ## VEO3Service (backend/app/services/veo3_service.py) -/

/-- From `VEO3Service.__init__`: `self.poll_interval_seconds = 5`. -/
def pollIntervalSeconds : Nat := 5

/-- From `VEO3Service.__init__`: `self.max_wait_seconds = 15 * 60`. -/
def maxWaitSeconds : Nat := 15 * 60

/-- The six candidate task-id locations of `_extract_task_id`
(lines 46-53), in source order, for a dict-shaped response.  The list is
built eagerly, so a non-dict sub-value raises before any candidate is
inspected. -/
def taskIdCandidates (rd : JVal) : Except String (List JVal) :=
  match subGet rd "data" "id" with
  | .error e => .error e
  | .ok c1 =>
  match pyGet rd "id" with
  | .error e => .error e
  | .ok c2 =>
  match subGet rd "result" "id" with
  | .error e => .error e
  | .ok c3 =>
  match pyGet rd "task_id" with
  | .error e => .error e
  | .ok c4 =>
  match subGet rd "data" "task_id" with
  | .error e => .error e
  | .ok c5 =>
  match subGet rd "detail" "id" with
  | .error e => .error e
  | .ok c6 => .ok [c1, c2, c3, c4, c5, c6]

/-- Embeds `VEO3Service._extract_task_id`, lines 37-60: falsy responses give
`None`, a (non-empty) bare string is returned as-is, and otherwise the
first truthy candidate is stringified and returned. -/
def extract_task_id (rd : JVal) : Except String (Option String) :=
  if truthy rd = false then .ok none
  else
    match rd with
    | .str s => .ok (some s)
    | _ =>
      match taskIdCandidates rd with
      | .error e => .error e
      | .ok cs =>
        match cs.find? truthy with
        | some c => .ok (some (pyStr c))
        | none => .ok none

/-- The dict returned by `_extract_status_info` (always carries all four
keys, each possibly `None`). -/
structure StatusInfo where
  status : JVal
  video_url : JVal
  progress : JVal
  error_msg : JVal

/-- Models the guarded sub-dict reads of lines 64-66 of
`_extract_status_info`: the sub-dict under key k when the response is
truthy, an empty dict otherwise. -/
def condSub (rd : JVal) (k : String) : Except String JVal :=
  if truthy rd then dictGet rd k (.obj []) else .ok (.obj [])

/-- The `status` extraction chain of `_extract_status_info`, lines 69-74. -/
def statusChain (rd data result detail : JVal) : Except String JVal :=
  pyOr (pyGet data "status") fun _ =>
  pyOr (pyGet rd "status") fun _ =>
  pyOr (pyGet result "status") fun _ => pyGet detail "status"

/-- The `video_url` extraction chain of `_extract_status_info`,
lines 77-87. -/
def videoUrlChain (rd data result detail : JVal) : Except String JVal :=
  pyOr (pyGet data "url") fun _ =>
  pyOr (pyGet data "video_url") fun _ =>
  pyOr (pyGet data "video") fun _ =>
  pyOr (pyGet rd "url") fun _ =>
  pyOr (pyGet result "url") fun _ =>
  pyOr (pyGet result "video_url") fun _ =>
  pyOr (pyGet rd "video_url") fun _ =>
  pyOr (pyGet detail "video_url") fun _ => pyGet detail "url"

/-- The `progress` extraction chain of `_extract_status_info`,
lines 90-95. -/
def progressChain (rd data result detail : JVal) : Except String JVal :=
  pyOr (pyGet data "progress") fun _ =>
  pyOr (pyGet rd "progress") fun _ =>
  pyOr (pyGet result "progress") fun _ => pyGet detail "progress"

/-- The `error` extraction chain of `_extract_status_info`, lines 98-103. -/
def errorChain (rd data result detail : JVal) : Except String JVal :=
  pyOr (pyGet data "error") fun _ =>
  pyOr (pyGet rd "error") fun _ =>
  pyOr (pyGet result "error") fun _ => pyGet detail "error"

/-- Embeds `VEO3Service._extract_status_info`, lines 62-110. -/
def extract_status_info (rd : JVal) : Except String StatusInfo :=
  match condSub rd "data" with
  | .error e => .error e
  | .ok data =>
  match condSub rd "result" with
  | .error e => .error e
  | .ok result =>
  match condSub rd "detail" with
  | .error e => .error e
  | .ok detail =>
  match statusChain rd data result detail with
  | .error e => .error e
  | .ok status =>
  match videoUrlChain rd data result detail with
  | .error e => .error e
  | .ok videoUrl =>
  match progressChain rd data result detail with
  | .error e => .error e
  | .ok progress =>
  match errorChain rd data result detail with
  | .error e => .error e
  | .ok errorMsg => .ok ⟨status, videoUrl, progress, errorMsg⟩

/-- Success synonyms of `poll_task_status`, line 228. -/
def successTokens : List String :=
  ["succeeded", "finished", "complete", "completed", "done", "ok", "success"]

/-- Failure synonyms of `poll_task_status`, line 260. -/
def failureTokens : List String :=
  ["failed", "error", "cancelled", "canceled"]

/-- The dict a single poll iteration may return (fields of the returns at
lines 243-268; `elapsed_seconds` and `response_data` are tracked by the
loop model). -/
structure PollReturn where
  success : Bool
  status : Option String
  video_url : Option JVal
  error : Option String
  task_id : String

/-- Video-URL resolution inside the success branch of `poll_task_status`,
lines 229-240: the already-extracted `status_info` URL if truthy, else the
alternative `or` chain over the raw response. -/
def resolve_video_url (rd : JVal) (info : StatusInfo) : Except String JVal :=
  if truthy info.video_url then .ok info.video_url
  else
    pyOr (pyGet rd "video_url") fun _ =>
    pyOr (subGet rd "detail" "video_url") fun _ =>
    pyOr (subGet rd "detail" "url") fun _ =>
    pyOr (subGet rd "data" "video_url") fun _ =>
    pyOr (subGet rd "data" "url") fun _ =>
    pyGet rd "url"

/-- One iteration of the inner `try` of `poll_task_status`, lines 219-279:
`none` means the loop continues (still-pending status, or a per-poll
exception that is caught and logged); `some r` means the loop returns `r`. -/
def pollStep (tid : String) (resp : Except String JVal) : Option PollReturn :=
  match resp with
  | .error _ => none
  | .ok rd =>
  match extract_status_info rd with
  | .error _ => none
  | .ok info =>
  match pyLower info.status with
  | .error _ => none
  | .ok status =>
  if status ∈ successTokens then
    match resolve_video_url rd info with
    | .error _ => none
    | .ok vu =>
      if truthy vu then
        some ⟨true, some "completed", some vu, none, tid⟩
      else
        some ⟨false, none, none, some "Task completed but no video URL found", tid⟩
  else if status ∈ failureTokens then
    some ⟨false, some status, none, some ("Task failed: " ++ pyStr info.error_msg), tid⟩
  else
    none

/-- The timeout return of `poll_task_status`, lines 212-217. -/
def timeoutReturn (tid : String) : PollReturn :=
  ⟨false, none, none,
    some ("Task polling timeout after " ++ toString maxWaitSeconds ++ " seconds"), tid⟩

/-- Final outcome of `poll_task_status`: the returned dict together with
the elapsed time at return and the number of status queries issued. -/
structure PollOutcome where
  result : PollReturn
  elapsedSeconds : Nat
  pollsMade : Nat

/-- The `while True` loop of `poll_task_status`, lines 208-282, with
requests modelled as instantaneous so that the elapsed time at the start
of iteration `k` is `k * poll_interval_seconds`.  The recursion is fuelled;
`poll_task_status` supplies fuel that is provably never exhausted
(`pollLoopGo_fuel_irrelevant`), and the fuel-exhaustion fallback repeats
the timeout return. -/
def pollLoopGo (tid : String) (resp : Nat → Except String JVal) :
    Nat → Nat → PollOutcome
  | 0, k => ⟨timeoutReturn tid, k * pollIntervalSeconds, k⟩
  | fuel + 1, k =>
    if k * pollIntervalSeconds > maxWaitSeconds then
      ⟨timeoutReturn tid, k * pollIntervalSeconds, k⟩
    else
      match pollStep tid (resp k) with
      | some r => ⟨r, k * pollIntervalSeconds, k + 1⟩
      | none => pollLoopGo tid resp fuel (k + 1)

/-- Embeds `VEO3Service.poll_task_status` as a function of the sequence of
status-query outcomes (`resp k` is the k-th request's outcome: a raised
transport error or a parsed JSON body). -/
def poll_task_status (tid : String) (resp : Nat → Except String JVal) : PollOutcome :=
  pollLoopGo tid resp (maxWaitSeconds / pollIntervalSeconds + 2) 0

/-! ## create_video_task (veo3_service.py, lines 126-189) -/

/-- The request body built by `create_video_task`. -/
structure Veo3Payload where
  prompt : String
  model : String
  enhance_prompt : Bool
  images : Option String

/-- Payload construction of `create_video_task`, lines 149-158: when the
`images` argument is truthy it is added to the payload and the payload's
`model` is overwritten with the configured `VEO3_MODEL_FRAMES`. -/
def build_create_payload (framesModel : String) (prompt model : String)
    (enhance : Bool) (images : Option String) : Veo3Payload :=
  let base : Veo3Payload := ⟨prompt, model, enhance, none⟩
  match images with
  | some s => if s != "" then ⟨prompt, framesModel, enhance, some s⟩ else base
  | none => base

/-- Embeds `VEO3_MODEL_FRAMES` (backend/config.py line 32): environment override
with default `"veo3-fast-frames"`. -/
def veo3ModelFrames (env : Option String) : String := env.getD "veo3-fast-frames"

/-- The dict returned by `create_video_task` (lines 166-189). -/
structure CreateTaskReturn where
  success : Bool
  task_id : Option String
  error : Option String
  response_data : Option JVal
  prompt : String
  model : String

/-- The part of `create_video_task` that handles the creation response,
lines 166-189: a raised extraction error is caught by the outer `except`
(lines 183-189); an extraction returning no id yields the
task-creation-failure dict carrying the raw response. -/
def create_video_task_outcome (prompt model : String) (rd : JVal) : CreateTaskReturn :=
  match extract_task_id rd with
  | .error e =>
    ⟨false, none, some ("Failed to create video task: " ++ e), none, prompt, model⟩
  | .ok none =>
    ⟨false, none, some ("Failed to extract task ID from response: " ++ pyStr rd),
      some rd, prompt, model⟩
  | .ok (some t) => ⟨true, some t, none, some rd, prompt, model⟩

/-! ## download_video (veo3_service.py, lines 291-338) -/

/-- Embeds `get_video_file_path` (backend/config.py): the video id, a
dot and the lowercased format inside the generated-video temp directory,
whose prefix is kept relative to the backend base directory. -/
def get_video_file_path (videoId : Nat) (format : String) : String :=
  "temp/generated_video/" ++ toString videoId ++ "." ++ strLower format

/-- Local filesystem: association of paths to byte contents. -/
def Fs : Type := List (String × List Nat)

/-- Content at a path. -/
def fsGet (fs : Fs) (p : String) : Option (List Nat) :=
  List.lookup p fs

/-- Create/overwrite a file. -/
def fsSet (fs : Fs) (p : String) (c : List Nat) : Fs :=
  (p, c) :: List.filter (fun e => e.1 != p) fs

/-- aiohttp `response.raise_for_status()`: raises exactly when the HTTP
status is at least 400. -/
def raise_for_status (status : Nat) : Except String Unit :=
  if status ≥ 400 then
    .error ("HTTP " ++ toString status)
  else
    .ok ()

/-- The dict returned by `download_video`. -/
structure DownloadReturn where
  success : Bool
  output_path : Option String
  file_size : Option Nat
  error : Option String
  video_id : Nat

/-- The chunked in-place write of lines 317-319: each chunk is appended to
the file as it arrives; a stream error leaves the bytes written so far. -/
def writeStream (fs : Fs) (p : String) (written : List Nat)
    (chunks : List (Except String (List Nat))) : Fs × Except String Unit :=
  match chunks with
  | [] => (fs, .ok ())
  | .ok c :: rest => writeStream (fsSet fs p (written ++ c)) p (written ++ c) rest
  | .error e :: _ => (fs, .error e)

/-- Embeds `VEO3Service.download_video`, lines 291-338, as a transition on the
local filesystem given the HTTP status and the (possibly interrupted)
chunk stream of the response.  `raise_for_status` runs before the file is
opened; opening with mode `wb` truncates the file in place. -/
def download_video (fs : Fs) (videoId : Nat) (format : String)
    (httpStatus : Nat) (chunks : List (Except String (List Nat))) : Fs × DownloadReturn :=
  let path := get_video_file_path videoId format
  match raise_for_status httpStatus with
  | .error e =>
    (fs, ⟨false, none, none, some ("Failed to download video: " ++ e), videoId⟩)
  | .ok () =>
    match writeStream (fsSet fs path []) path [] chunks with
    | (fs', .ok ()) =>
      let size := ((fsGet fs' path).getD []).length
      (fs', ⟨true, some path, some size, none, videoId⟩)
    | (fs', .error e) =>
      (fs', ⟨false, none, none, some ("Failed to download video: " ++ e), videoId⟩)

/-! ## OpenAIService prompt generation (openai_service.py) -/

/-- The dict returned by the two prompt-generation entry points of
`OpenAIService` (and by `AIProcessor._generate_ai_prompts`). -/
structure PromptResult where
  success : Bool
  data : Option JVal
  raw_response : Option String
  warning : Option String
  error : Option String

/-- The fallback `data` dict of `analyze_and_generate_prompts`,
lines 131-139: raw model text used for both instruction fields. -/
def analysisFallbackData (content : String) : JVal :=
  .obj [
    ("analysis", .obj [
      ("main_theme", .str "Parse failed"),
      ("key_elements", .arr []),
      ("style_preference", .str "Unknown"),
      ("mood", .str "Unknown")]),
    ("video_prompt", .str content),
    ("audio_prompt", .str content)]

/-- Embeds `OpenAIService.analyze_and_generate_prompts`, lines 118-143, from the
LLM text onward: `loads` models `json.loads`, returning `none` on
`JSONDecodeError`. -/
def analyze_and_generate_prompts (loads : String → Option JVal)
    (content : String) : PromptResult :=
  match loads content with
  | some r => ⟨true, some r, some content, none, none⟩
  | none =>
    ⟨true, some (analysisFallbackData content), some content,
      some "Response was not in expected JSON format", none⟩

/-- The fallback `data` dict of `analyze_pdf_content_and_generate_prompts`,
lines 311-327. -/
def pdfFallbackData (content userPrompt : String) : JVal :=
  .obj [
    ("analysis", .obj [
      ("main_theme", .str "Document-based content"),
      ("key_elements", .arr [.str "PDF content analysis"]),
      ("important_details", .arr [.str "Content extracted from uploaded documents"]),
      ("style_preference", .str "Professional"),
      ("mood", .str "Informative"),
      ("pdf_summary", .str "PDF content processed")]),
    ("video_prompt", .str content),
    ("audio_prompt", .str content),
    ("enhanced_user_prompt", .str userPrompt)]

/-- Embeds `OpenAIService.analyze_pdf_content_and_generate_prompts`,
lines 293-329, from the LLM text onward. -/
def analyze_pdf_content_and_generate_prompts (loads : String → Option JVal)
    (userPrompt content : String) : PromptResult :=
  match loads content with
  | some r => ⟨true, some r, some content, none, none⟩
  | none =>
    ⟨true, some (pdfFallbackData content userPrompt), some content,
      some "Response was not in expected JSON format", none⟩

/-! ## VideoSession model and CRUD (backend/models.py, backend/crud.py) -/

/-- Embeds `models.VideoSessionStatus`, lines 29-34: note the enum has five
members, including `ACTIVE`. -/
inductive VideoSessionStatus where
  | pending
  | active
  | processing
  | completed
  | failed
deriving DecidableEq, Repr

/-- A `video_sessions` row (the fields the verified operations touch). -/
structure VideoSession where
  id : Nat
  status : VideoSessionStatus
  user_prompt : Option String
  category : Option String
  processed_files : Nat
deriving DecidableEq, Repr

/-- Embeds `schemas.VideoSessionUpdate` under `dict(exclude_unset=True)`:
`none` stands for a field that was not set on the update object. -/
structure VideoSessionUpdate where
  status : Option VideoSessionStatus
  user_prompt : Option String
  category : Option String
  processed_files : Option Nat
deriving DecidableEq, Repr

/-- The field-assignment loop of `crud.update_video_session`,
lines 182-184: every set field is copied onto the row, unconditionally. -/
def applyUpdate (s : VideoSession) (u : VideoSessionUpdate) : VideoSession :=
  { s with
    status := u.status.getD s.status
    user_prompt := (u.user_prompt).orElse (fun _ => s.user_prompt)
    category := (u.category).orElse (fun _ => s.category)
    processed_files := u.processed_files.getD s.processed_files }

/-- The database of sessions. -/
def SessionDb : Type := List VideoSession

/-- Embeds `crud.get_video_session`: first row with the given id. -/
def get_video_session (db : SessionDb) (sid : Nat) : Option VideoSession :=
  List.find? (fun s => s.id == sid) db

/-- Embeds `crud.update_video_session`, lines 178-187: look the session up, apply
every set field of the update, commit; returns the updated row (`none`
when the session does not exist, in which case the database is unchanged). -/
def update_video_session (db : SessionDb) (sid : Nat) (u : VideoSessionUpdate) :
    SessionDb × Option VideoSession :=
  match get_video_session db sid with
  | none => (db, none)
  | some s =>
    let s' := applyUpdate s u
    (List.map (fun r => if r.id == sid then s' else r) db, some s')

/-- The status transitions asserted by the specification's session state
machine: `PENDING → PROCESSING → \x7bCOMPLETED, FAILED\x7d`. -/
def specTransition : VideoSessionStatus → VideoSessionStatus → Bool
  | .pending, .processing => true
  | .processing, .completed => true
  | .processing, .failed => true
  | _, _ => false

/-! ## AIProcessor pipeline (backend/app/services/ai_processor.py) -/

/-- One entry of the `pdf_contents` list produced by
`pdf_service.process_session_pdfs`: per-document extraction status
(`"success"` or `"error"`) and extracted text. -/
structure PdfDoc where
  status : String
  text : String

/-- The dict returned by `AIProcessor._process_session_pdfs`
(lines 134-173).  `successful_extractions`/`failed_extractions` are absent
(`none`) on the stage-failure dict of lines 167-173. -/
structure PdfStageResult where
  status : String
  error : Option String
  pdf_files_processed : Nat
  combined_content : String
  successful_extractions : Option Nat
  failed_extractions : Option Nat

/-- Embeds `AIProcessor._process_session_pdfs`, lines 134-173, as a function of
the pdf service outcome (`.error` = a raised exception) and of the text
combiner `combine` (`pdf_service.combine_pdf_texts`). -/
def process_session_pdfs (combine : List PdfDoc → String)
    (raw : Except String (List PdfDoc)) : PdfStageResult :=
  match raw with
  | .error e => ⟨"failed", some e, 0, "", none, none⟩
  | .ok [] => ⟨"success", none, 0, "", some 0, some 0⟩
  | .ok docs =>
    ⟨"success", none, docs.length, combine docs,
      some (List.filter (fun d => d.status == "success") docs).length,
      some (List.filter (fun d => d.status == "error") docs).length⟩

/-- The dict returned by `image_service.process_session_image`. -/
structure ImageServiceResult where
  status : String
  has_image : Bool
  image_url : Option String

/-- The dict returned by `AIProcessor._process_session_images`
(lines 175-205). -/
structure ImageStageResult where
  status : String
  error : Option String
  has_image : Bool
  images : List String

/-- Embeds `AIProcessor._process_session_images`, lines 175-205. -/
def process_session_images (raw : Except String ImageServiceResult) : ImageStageResult :=
  match raw with
  | .error e => ⟨"failed", some e, false, []⟩
  | .ok r =>
    if r.status == "success" && r.has_image then
      ⟨"success", none, true, [(r.image_url).getD ""]⟩
    else
      ⟨"success", none, false, []⟩

/-- Embeds `AIProcessor._generate_ai_prompts`, lines 207-245, as a function of
the OpenAI service call outcome (`.error` = a raised exception, converted
to the failure dict of lines 241-245). -/
def generate_ai_prompts (raw : Except String PromptResult) : PromptResult :=
  match raw with
  | .ok r => r
  | .error e => ⟨false, none, none, none, some e⟩

/-- The dict returned by `AIProcessor._update_session_with_results`
(lines 278-296). -/
structure SessionUpdateReturn where
  status : String
  session_status : Option String
  processed_files : Option Nat
  error : Option String

/-- String value of a session status (`VideoSessionStatus.value`). -/
def statusValue : VideoSessionStatus → String
  | .pending => "pending"
  | .active => "active"
  | .processing => "processing"
  | .completed => "completed"
  | .failed => "failed"

/-- Embeds `AIProcessor._update_session_with_results`, lines 247-296: the session
is moved to `COMPLETED` exactly when all three stage results report
success, else to `FAILED`; `processed_files` is set to the pdf stage's
`successful_extractions` (default 0). -/
def update_session_with_results (db : SessionDb) (sid : Nat)
    (pdf : PdfStageResult) (img : ImageStageResult) (ai : PromptResult)
    (userPrompt : String) (category : Option String) :
    SessionDb × SessionUpdateReturn :=
  let newStatus :=
    if pdf.status == "success" && img.status == "success" && ai.success then
      VideoSessionStatus.completed
    else
      VideoSessionStatus.failed
  let upd : VideoSessionUpdate :=
    ⟨some newStatus, some userPrompt, category, some (pdf.successful_extractions.getD 0)⟩
  let res := update_video_session db sid upd
  match res.2 with
  | some _ =>
    (res.1, ⟨"success", some (statusValue newStatus),
      some (pdf.successful_extractions.getD 0), none⟩)
  | none =>
    (res.1, ⟨"failed", none, none, some "Failed to update session in database"⟩)

/-- Python `a or b` on an optional string (empty string is falsy). -/
def strOr (a : Option String) (b : String) : String :=
  match a with
  | some s => if s == "" then b else s
  | none => b

/-- The dict returned by `AIProcessor.process_video_session`
(lines 96-111 on the normal path, lines 127-132 on the exception path).
The nested per-stage dicts are carried so that where an error message
lands is visible. -/
structure PipelineReturn where
  session_id : Nat
  status : String
  error : Option String
  pdf_processing : Option PdfStageResult
  image_processing : Option ImageStageResult
  ai_generation : Option PromptResult
  video_prompt : Option JVal
  audio_prompt : Option JVal

/-- Embeds `AIProcessor.process_video_session`, lines 33-132, as a transition on
the session database, parameterised by the outcomes of the three
underlying service calls.  The embedded control flow: a missing session
raises (line 59) and is caught by the outer handler (lines 116-132) which
persists `FAILED` and returns the failure dict; each stage helper catches
its own exceptions; after the session update, building
`processing_results` evaluates `ai_results.get("data", \x7b\x7d).get(...)`
(line 104), which raises `AttributeError` whenever that `data` value is
not a dict - `None` or any other non-dict JSON value - and that exception
is again caught by the outer handler.  The model reuses the uniform
`dictGet` message; the Python message additionally names the concrete
type and carries quotes. -/
def process_video_session (combine : List PdfDoc → String)
    (db : SessionDb) (sid : Nat)
    (userPrompt : Option String) (category : Option String)
    (pdfRaw : Except String (List PdfDoc))
    (imgRaw : Except String ImageServiceResult)
    (aiRaw : Except String PromptResult) : SessionDb × PipelineReturn :=
  match get_video_session db sid with
  | none =>
    let db' := (update_video_session db sid ⟨some .failed, none, none, none⟩).1
    (db', ⟨sid, "failed",
      some ("Video session " ++ toString sid ++ " not found"),
      none, none, none, none, none⟩)
  | some sess =>
    let finalPrompt :=
      strOr userPrompt (strOr sess.user_prompt "Create a video based on the uploaded documents")
    let finalCategory := (category).orElse (fun _ => sess.category)
    let pdfRes := process_session_pdfs combine pdfRaw
    let imgRes := process_session_images imgRaw
    let aiRes := generate_ai_prompts aiRaw
    let db' :=
      (update_session_with_results db sid pdfRes imgRes aiRes finalPrompt finalCategory).1
    let jdata : JVal :=
      match aiRes.data with
      | none => .null
      | some d => d
    match dictGet jdata "video_prompt" (.str "") with
    | .error e =>
      let db'' := (update_video_session db' sid ⟨some .failed, none, none, none⟩).1
      (db'', ⟨sid, "failed", some e, none, none, none, none, none⟩)
    | .ok vp =>
      let ap := (dictGet jdata "audio_prompt" (.str "")).toOption
      (db', ⟨sid, "completed", none, some pdfRes, some imgRes, some aiRes, some vp, ap⟩)

/-! ## Helper lemmas -/

theorem pyOr_ok_falsy {a : Except String JVal} {b : Unit → Except String JVal} {v : JVal}
    (h : pyOr a b = .ok v) (hv : truthy v = false) :
    ∃ w, a = .ok w ∧ truthy w = false ∧ b () = .ok v := by
  cases a with
  | error e => simp [pyOr] at h
  | ok w =>
    by_cases hw : truthy w = true
    · simp [pyOr, hw] at h
      rw [h] at hw
      rw [hw] at hv
      exact absurd hv (by simp)
    · refine ⟨w, rfl, by simpa using hw, ?_⟩
      simpa [pyOr, hw] using h

theorem pyOr_falsy_step {a : Except String JVal} {b : Unit → Except String JVal} {w : JVal}
    (ha : a = .ok w) (hw : truthy w = false) : pyOr a b = b () := by
  simp [pyOr, ha, hw]

theorem pyGet_ok_obj {x : JVal} {k : String} {v : JVal} (h : pyGet x k = .ok v) :
    ∃ fs, x = .obj fs := by
  cases x with
  | obj fs => exact ⟨fs, rfl⟩
  | null => simp [pyGet, dictGet] at h
  | bool b => simp [pyGet, dictGet] at h
  | int n => simp [pyGet, dictGet] at h
  | str s => simp [pyGet, dictGet] at h
  | arr xs => simp [pyGet, dictGet] at h

theorem condSub_obj (fs : List (String × JVal)) (k : String) :
    condSub (.obj fs) k = dictGet (.obj fs) k (.obj []) := by
  by_cases h : truthy (.obj fs) = true
  · simp [condSub, h]
  · have hfs : fs = [] := by
      simp [truthy, List.isEmpty_iff] at h
      exact h
    subst hfs
    simp [condSub, truthy, dictGet, List.lookup]

/-- Destructuring of a successful `_extract_status_info` run into its
per-field extraction chains. -/
theorem extract_ok_elim {rd : JVal} {info : StatusInfo}
    (h : extract_status_info rd = .ok info) :
    ∃ data result detail,
      condSub rd "data" = .ok data ∧ condSub rd "result" = .ok result ∧
      condSub rd "detail" = .ok detail ∧
      statusChain rd data result detail = .ok info.status ∧
      videoUrlChain rd data result detail = .ok info.video_url ∧
      progressChain rd data result detail = .ok info.progress ∧
      errorChain rd data result detail = .ok info.error_msg := by
  unfold extract_status_info at h
  cases hdata : condSub rd "data" with
  | error e => simp [hdata] at h
  | ok data =>
  simp only [hdata] at h
  cases hres : condSub rd "result" with
  | error e => simp [hres] at h
  | ok result =>
  simp only [hres] at h
  cases hdet : condSub rd "detail" with
  | error e => simp [hdet] at h
  | ok detail =>
  simp only [hdet] at h
  cases hst : statusChain rd data result detail with
  | error e => simp [hst] at h
  | ok status =>
  simp only [hst] at h
  cases hvu : videoUrlChain rd data result detail with
  | error e => simp [hvu] at h
  | ok videoUrl =>
  simp only [hvu] at h
  cases hpr : progressChain rd data result detail with
  | error e => simp [hpr] at h
  | ok progress =>
  simp only [hpr] at h
  cases her : errorChain rd data result detail with
  | error e => simp [her] at h
  | ok errorMsg =>
  simp only [her] at h
  have hinfo : info = ⟨status, videoUrl, progress, errorMsg⟩ := by
    cases h
    rfl
  subst hinfo
  exact ⟨data, result, detail, rfl, rfl, rfl, hst, hvu, hpr, her⟩

/-- When `_extract_status_info` succeeded but produced a falsy
`video_url`, the whole video-url chain was evaluated; in particular the
response and its `data`/`detail` sub-dicts are dicts, every candidate key
is falsy, and the alternative chain of the poll success branch therefore
also resolves - to a falsy value. -/
theorem resolve_ok_of_extract_falsy {rd : JVal} {info : StatusInfo}
    (h : extract_status_info rd = .ok info) (hfalsy : truthy info.video_url = false) :
    ∃ v, resolve_video_url rd info = .ok v ∧ truthy v = false := by
  obtain ⟨data, result, detail, hdata, hres, hdet, _, hvu, _, _⟩ := extract_ok_elim h
  unfold videoUrlChain at hvu
  obtain ⟨w1, he1, hw1, hrest1⟩ := pyOr_ok_falsy hvu hfalsy
  obtain ⟨w2, he2, hw2, hrest2⟩ := pyOr_ok_falsy hrest1 hfalsy
  obtain ⟨w3, he3, hw3, hrest3⟩ := pyOr_ok_falsy hrest2 hfalsy
  obtain ⟨w4, he4, hw4, hrest4⟩ := pyOr_ok_falsy hrest3 hfalsy
  obtain ⟨w5, he5, hw5, hrest5⟩ := pyOr_ok_falsy hrest4 hfalsy
  obtain ⟨w6, he6, hw6, hrest6⟩ := pyOr_ok_falsy hrest5 hfalsy
  obtain ⟨w7, he7, hw7, hrest7⟩ := pyOr_ok_falsy hrest6 hfalsy
  obtain ⟨w8, he8, hw8, he9⟩ := pyOr_ok_falsy hrest7 hfalsy
  obtain ⟨rdfs, hrd⟩ := pyGet_ok_obj he4
  subst hrd
  have hdataGet : dictGet (.obj rdfs) "data" (.obj []) = .ok data := by
    rw [← condSub_obj]; exact hdata
  have hdetGet : dictGet (.obj rdfs) "detail" (.obj []) = .ok detail := by
    rw [← condSub_obj]; exact hdet
  have hsub2 : subGet (.obj rdfs) "detail" "video_url" = .ok w8 := by
    simp [subGet, hdetGet, he8]
  have hsub3 : subGet (.obj rdfs) "detail" "url" = .ok info.video_url := by
    simp [subGet, hdetGet, he9]
  have hsub4 : subGet (.obj rdfs) "data" "video_url" = .ok w2 := by
    simp [subGet, hdataGet, he2]
  have hsub5 : subGet (.obj rdfs) "data" "url" = .ok w1 := by
    simp [subGet, hdataGet, he1]
  refine ⟨w4, ?_, hw4⟩
  unfold resolve_video_url
  rw [if_neg (by simp [hfalsy])]
  simp only [pyOr_falsy_step he7 hw7]
  simp only [pyOr_falsy_step hsub2 hw8]
  simp only [pyOr_falsy_step hsub3 hfalsy]
  simp only [pyOr_falsy_step hsub4 hw2]
  simp only [pyOr_falsy_step hsub5 hw1]
  exact he4

/-! ## Claim theorems -/

/-- C1: for every status-query response whose extracted status is a
string, the poll iteration compares its lowercased form against the fixed
token lists: a success token makes the loop stop in the completion branch
(success return or missing-url failure), a failure token makes it return
the failure result carrying the lowercased status, and any other string
leaves the task pending - the iteration yields `none` and the loop
continues with the next poll. -/
theorem C1_status_token_classification (tid : String) (rd : JVal) (info : StatusInfo)
    (s : String) (hinfo : extract_status_info rd = .ok info) (hs : info.status = .str s) :
    (strLower s ∈ successTokens →
      ∃ r, pollStep tid (.ok rd) = some r ∧
        (r.status = some "completed" ∨
          r.error = some "Task completed but no video URL found")) ∧
    (strLower s ∈ failureTokens →
      ∃ r, pollStep tid (.ok rd) = some r ∧ r.success = false ∧
        r.status = some (strLower s)) ∧
    (strLower s ∉ successTokens → strLower s ∉ failureTokens →
      pollStep tid (.ok rd) = none ∧
      ∀ (resp : Nat → Except String JVal) (fuel k : Nat), resp k = .ok rd →
        ¬ k * pollIntervalSeconds > maxWaitSeconds →
        pollLoopGo tid resp (fuel + 1) k = pollLoopGo tid resp fuel (k + 1)) := by
  refine ⟨?_, ?_, ?_⟩
  · intro hmem
    by_cases ht : truthy info.video_url = true
    · refine ⟨⟨true, some "completed", some info.video_url, none, tid⟩, ?_, Or.inl rfl⟩
      simp [pollStep, hinfo, hs, pyLower, hmem, resolve_video_url, ht]
    · obtain ⟨v, hresv, hv⟩ :=
        resolve_ok_of_extract_falsy hinfo (by simpa using ht)
      refine ⟨⟨false, none, none, some "Task completed but no video URL found", tid⟩,
        ?_, Or.inr rfl⟩
      simp [pollStep, hinfo, hs, pyLower, hmem, hresv, hv]
  · intro hmem
    have hdisj : ∀ x ∈ failureTokens, x ∉ successTokens := by decide
    have hns : strLower s ∉ successTokens := hdisj _ hmem
    refine ⟨⟨false, some (strLower s), none,
      some ("Task failed: " ++ pyStr info.error_msg), tid⟩, ?_, rfl, rfl⟩
    simp [pollStep, hinfo, hs, pyLower, hmem, hns]
  · intro hns hnf
    have hstep : pollStep tid (.ok rd) = none := by
      simp [pollStep, hinfo, hs, pyLower, hns, hnf]
    refine ⟨hstep, ?_⟩
    intro resp fuel k hk hto
    have hstepk : pollStep tid (resp k) = none := by rw [hk]; exact hstep
    simp [pollLoopGo, hto, hstepk]

/-- Witness for C1 at a concrete uppercase success response. -/
theorem C1_witness :
    ∃ r, pollStep "t" (.ok (.obj [("status", .str "SUCCEEDED"), ("url", .str "u")])) = some r ∧
      (r.status = some "completed" ∨ r.error = some "Task completed but no video URL found") :=
  (C1_status_token_classification "t"
    (.obj [("status", .str "SUCCEEDED"), ("url", .str "u")])
    ⟨.str "SUCCEEDED", .str "u", .null, .null⟩ "SUCCEEDED" rfl rfl).1 (by decide)

/-- C4: for every status response whose status string matches a success
synonym case-insensitively, the poll iteration returns success carrying
the resolved video URL when one resolves to a truthy value, returns the
missing-video-URL failure when resolution yields a falsy value, and never
returns success without a truthy URL. -/
theorem C4_success_requires_video_url (tid : String) (rd : JVal) (info : StatusInfo)
    (s : String) (hinfo : extract_status_info rd = .ok info) (hs : info.status = .str s)
    (hmem : strLower s ∈ successTokens) :
    (∀ u, resolve_video_url rd info = .ok u → truthy u = true →
      pollStep tid (.ok rd) = some ⟨true, some "completed", some u, none, tid⟩) ∧
    (∀ u, resolve_video_url rd info = .ok u → truthy u = false →
      pollStep tid (.ok rd) =
        some ⟨false, none, none, some "Task completed but no video URL found", tid⟩) ∧
    (∀ r, pollStep tid (.ok rd) = some r → r.success = true →
      ∃ u, r.video_url = some u ∧ truthy u = true) := by
  refine ⟨?_, ?_, ?_⟩
  · intro u hres hu
    simp [pollStep, hinfo, hs, pyLower, hmem, hres, hu]
  · intro u hres hu
    simp [pollStep, hinfo, hs, pyLower, hmem, hres, hu]
  · intro r hr hsucc
    cases hres : resolve_video_url rd info with
    | error e => simp [pollStep, hinfo, hs, pyLower, hmem, hres] at hr
    | ok vu =>
      by_cases hu : truthy vu = true
      · simp [pollStep, hinfo, hs, pyLower, hmem, hres, hu] at hr
        exact ⟨vu, by simp [← hr], hu⟩
      · simp [pollStep, hinfo, hs, pyLower, hmem, hres, hu] at hr
        rw [← hr] at hsucc
        exact absurd hsucc (by simp)

/-- Witness for C4 at a concrete success response carrying a URL. -/
theorem C4_witness :
    pollStep "t" (.ok (.obj [("status", .str "SUCCEEDED"), ("url", .str "u")])) =
      some ⟨true, some "completed", some (.str "u"), none, "t"⟩ :=
  (C4_success_requires_video_url "t"
    (.obj [("status", .str "SUCCEEDED"), ("url", .str "u")])
    ⟨.str "SUCCEEDED", .str "u", .null, .null⟩ "SUCCEEDED" rfl rfl (by decide)).1
    (.str "u") rfl rfl

/-- The fuelled loop is insensitive to the exact fuel once the fuel is
large enough to reach the timeout check that fires. -/
theorem pollLoopGo_fuel_irrelevant (tid : String) (resp : Nat → Except String JVal) :
    ∀ fuel1 fuel2 k, maxWaitSeconds < (k + fuel1) * pollIntervalSeconds →
      maxWaitSeconds < (k + fuel2) * pollIntervalSeconds →
      pollLoopGo tid resp fuel1 k = pollLoopGo tid resp fuel2 k := by
  intro fuel1
  induction fuel1 with
  | zero =>
    intro fuel2 k h1 h2
    cases fuel2 with
    | zero => rfl
    | succ n =>
      have hto : k * pollIntervalSeconds > maxWaitSeconds := by
        simpa using h1
      simp [pollLoopGo, hto]
  | succ n ih =>
    intro fuel2 k h1 h2
    cases fuel2 with
    | zero =>
      have hto : k * pollIntervalSeconds > maxWaitSeconds := by
        simpa using h2
      simp [pollLoopGo, hto]
    | succ m =>
      by_cases hto : k * pollIntervalSeconds > maxWaitSeconds
      · simp [pollLoopGo, hto]
      · cases hstep : pollStep tid (resp k) with
        | some r => simp [pollLoopGo, hto, hstep]
        | none =>
          simp only [pollLoopGo, hto, hstep, if_neg hto]
          exact ih m (k + 1)
            (by simp [pollIntervalSeconds, maxWaitSeconds] at h1 ⊢; omega)
            (by simp [pollIntervalSeconds, maxWaitSeconds] at h2 ⊢; omega)

/-- Elapsed-time invariant of the fuelled loop. -/
theorem pollLoopGo_elapsed_le (tid : String) (resp : Nat → Except String JVal) :
    ∀ fuel k, k * pollIntervalSeconds ≤ maxWaitSeconds + pollIntervalSeconds →
      (pollLoopGo tid resp fuel k).elapsedSeconds ≤ maxWaitSeconds + pollIntervalSeconds := by
  intro fuel
  induction fuel with
  | zero => intro k hk; simpa [pollLoopGo] using hk
  | succ n ih =>
    intro k hk
    by_cases hto : k * pollIntervalSeconds > maxWaitSeconds
    · simpa [pollLoopGo, hto] using hk
    · cases hstep : pollStep tid (resp k) with
      | some r => simpa [pollLoopGo, hto, hstep] using hk
      | none =>
        simp only [pollLoopGo, hstep, if_neg hto]
        exact ih (k + 1)
          (by simp [pollIntervalSeconds, maxWaitSeconds] at hto ⊢; omega)

/-- C3: for every execution of the poll loop - any sequence of status
responses, including per-poll errors - `poll_task_status` terminates (it
is a total function of the response sequence) and the elapsed time at
return is at most `max_wait_seconds + poll_interval_seconds`; polling
never blocks indefinitely. -/
theorem C3_poll_terminates_within_bound (tid : String) (resp : Nat → Except String JVal) :
    (poll_task_status tid resp).elapsedSeconds ≤ maxWaitSeconds + pollIntervalSeconds :=
  pollLoopGo_elapsed_le tid resp _ 0 (by simp)

/-- Every loop return is either the timeout dict or the dict produced by
some poll iteration. -/
theorem pollLoopGo_result_cases (tid : String) (resp : Nat → Except String JVal) :
    ∀ fuel k, (pollLoopGo tid resp fuel k).result = timeoutReturn tid ∨
      ∃ j r, pollStep tid (resp j) = some r ∧ (pollLoopGo tid resp fuel k).result = r := by
  intro fuel
  induction fuel with
  | zero => intro k; exact Or.inl rfl
  | succ n ih =>
    intro k
    by_cases hto : k * pollIntervalSeconds > maxWaitSeconds
    · left; simp [pollLoopGo, hto]
    · cases hstep : pollStep tid (resp k) with
      | some r =>
        right
        exact ⟨k, r, hstep, by simp [pollLoopGo, hto, hstep]⟩
      | none =>
        simpa only [pollLoopGo, hstep, if_neg hto] using ih (k + 1)

/-- A poll iteration that ends the loop with a failure is either an
explicit terminal-failure status or a success status whose video URL did
not resolve. -/
theorem pollStep_failure_cases (tid : String) (resp : Except String JVal) (r : PollReturn)
    (hr : pollStep tid resp = some r) (hfail : r.success = false) :
    (∃ s, r.status = some s ∧ s ∈ failureTokens) ∨
      r.error = some "Task completed but no video URL found" := by
  cases resp with
  | error e => simp [pollStep] at hr
  | ok rd =>
    cases hinfo : extract_status_info rd with
    | error e => simp [pollStep, hinfo] at hr
    | ok info =>
      cases hlow : pyLower info.status with
      | error e => simp [pollStep, hinfo, hlow] at hr
      | ok status =>
        by_cases hmem : status ∈ successTokens
        · cases hres : resolve_video_url rd info with
          | error e => simp [pollStep, hinfo, hlow, hmem, hres] at hr
          | ok vu =>
            by_cases hu : truthy vu = true
            · simp [pollStep, hinfo, hlow, hmem, hres, hu] at hr
              rw [← hr] at hfail
              exact absurd hfail (by simp)
            · simp [pollStep, hinfo, hlow, hmem, hres, hu] at hr
              right
              simp [← hr]
        · by_cases hfm : status ∈ failureTokens
          · simp [pollStep, hinfo, hlow, hmem, hfm] at hr
            left
            exact ⟨status, by simp [← hr], hfm⟩
          · simp [pollStep, hinfo, hlow, hmem, hfm] at hr

/-- The C6 scenario: five "processing" responses, then a "failed" response
whose error is "quota exceeded". -/
def c6resp (i : Nat) : Except String JVal :=
  if i < 5 then .ok (.obj [("status", .str "processing")])
  else .ok (.obj [("status", .str "failed"), ("error", .str "quota exceeded")])

/-- C6 counterexample: a first response with a terminal-success status but
no video URL ends the loop with a failure result after one poll - neither
a timeout (elapsed 0) nor a terminal-failure status - so "only timeout or
an explicit terminal-failure status ends the loop with a failure" is false
as stated. -/
theorem C6_counterexample :
    (poll_task_status "t" (fun _ => .ok (.obj [("status", .str "succeeded")]))).result.success
        = false ∧
    (poll_task_status "t" (fun _ => .ok (.obj [("status", .str "succeeded")]))).result.error
        = some "Task completed but no video URL found" ∧
    (poll_task_status "t" (fun _ => .ok (.obj [("status", .str "succeeded")]))).elapsedSeconds
        = 0 ∧
    (poll_task_status "t" (fun _ => .ok (.obj [("status", .str "succeeded")]))).result.status
        = none ∧
    "succeeded" ∉ failureTokens := by
  refine ⟨by decide, by decide, by decide, by decide, by decide⟩

/-- C6 (amended): five consecutive "processing" responses followed by a
"failed" response with error "quota exceeded" give a failure result
containing that exact message after exactly six poll calls; a per-poll
transport error never ends the loop; and a loop run that returns a failure
does so only through the timeout return or through one poll iteration
whose result is either an explicit terminal-failure status or a
terminal-success status with no resolvable video URL. -/
theorem C6_poll_failure_sources :
    ((poll_task_status "t" c6resp).pollsMade = 6 ∧
      (poll_task_status "t" c6resp).result.success = false ∧
      (poll_task_status "t" c6resp).result.error = some "Task failed: quota exceeded") ∧
    (∀ (tid e : String), pollStep tid (.error e) = none) ∧
    (∀ (tid : String) (resp : Nat → Except String JVal),
      (poll_task_status tid resp).result.success = false →
      (poll_task_status tid resp).result = timeoutReturn tid ∨
        ∃ j r, pollStep tid (resp j) = some r ∧ (poll_task_status tid resp).result = r ∧
          ((∃ s, r.status = some s ∧ s ∈ failureTokens) ∨
            r.error = some "Task completed but no video URL found")) := by
  refine ⟨⟨by decide, by decide, by decide⟩, fun tid e => rfl, ?_⟩
  intro tid resp hfail
  simp only [poll_task_status] at hfail ⊢
  rcases pollLoopGo_result_cases tid resp (maxWaitSeconds / pollIntervalSeconds + 2) 0 with
    h | ⟨j, r, hstep, hres⟩
  · exact Or.inl h
  · right
    refine ⟨j, r, hstep, hres, ?_⟩
    apply pollStep_failure_cases tid (resp j) r hstep
    rw [← hres]
    exact hfail

/-- Witness for C6 at a concrete terminal-failure response sequence. -/
theorem C6_witness :
    (poll_task_status "t"
        (fun _ => .ok (.obj [("status", .str "failed"), ("error", .str "boom")]))).result =
      timeoutReturn "t" ∨
    ∃ (_ : Nat) (r : PollReturn),
      pollStep "t" (.ok (.obj [("status", .str "failed"), ("error", .str "boom")])) = some r ∧
      (poll_task_status "t"
        (fun _ => .ok (.obj [("status", .str "failed"), ("error", .str "boom")]))).result = r ∧
      ((∃ s, r.status = some s ∧ s ∈ failureTokens) ∨
        r.error = some "Task completed but no video URL found") :=
  C6_poll_failure_sources.2.2 "t"
    (fun _ => .ok (.obj [("status", .str "failed"), ("error", .str "boom")])) (by decide)

/-- C5: for well-formed task-creation responses, a non-empty bare string
is returned as the task id; a dict-shaped response whose six candidate
locations all evaluated is answered with the stringified first truthy
candidate (and no other); and when no candidate is truthy the client
fails with the task-creation error carrying the raw response body. -/
theorem C5_task_id_extraction_priority (p m : String) (rd : JVal) (cs : List JVal) :
    (∀ s, s ≠ "" →
      create_video_task_outcome p m (.str s) = ⟨true, some s, none, some (.str s), p, m⟩) ∧
    (truthy rd = true → (∀ s, rd ≠ .str s) → taskIdCandidates rd = .ok cs →
      (∀ c, cs.find? truthy = some c →
        create_video_task_outcome p m rd = ⟨true, some (pyStr c), none, some rd, p, m⟩) ∧
      (cs.find? truthy = none →
        create_video_task_outcome p m rd =
          ⟨false, none, some ("Failed to extract task ID from response: " ++ pyStr rd),
            some rd, p, m⟩)) := by
  constructor
  · intro s hs
    have ht : truthy (.str s) = true := by simp [truthy, hs]
    simp [create_video_task_outcome, extract_task_id, ht]
  · intro htr hnstr hcs
    constructor
    · intro c hc
      cases rd with
      | str s => exact absurd rfl (hnstr s)
      | null => simp [truthy] at htr
      | bool b =>
        simp [create_video_task_outcome, extract_task_id, htr, hcs, hc]
      | int n =>
        simp [create_video_task_outcome, extract_task_id, htr, hcs, hc]
      | arr xs =>
        simp [create_video_task_outcome, extract_task_id, htr, hcs, hc]
      | obj fs =>
        simp [create_video_task_outcome, extract_task_id, htr, hcs, hc]
    · intro hc
      cases rd with
      | str s => exact absurd rfl (hnstr s)
      | null => simp [truthy] at htr
      | bool b =>
        simp [create_video_task_outcome, extract_task_id, htr, hcs, hc]
      | int n =>
        simp [create_video_task_outcome, extract_task_id, htr, hcs, hc]
      | arr xs =>
        simp [create_video_task_outcome, extract_task_id, htr, hcs, hc]
      | obj fs =>
        simp [create_video_task_outcome, extract_task_id, htr, hcs, hc]

/-- Witness for C5: the empty `data.id` candidate is skipped and the
second candidate (top-level `id`) is returned. -/
theorem C5_witness :
    create_video_task_outcome "p" "m"
        (.obj [("data", .obj [("id", .str "")]), ("id", .str "t42")]) =
      ⟨true, some "t42", none,
        some (.obj [("data", .obj [("id", .str "")]), ("id", .str "t42")]), "p", "m"⟩ :=
  ((C5_task_id_extraction_priority "p" "m"
      (.obj [("data", .obj [("id", .str "")]), ("id", .str "t42")])
      [.str "", .str "t42", .null, .null, .null, .null]).2
    (by decide) (by intro s h; cases h) rfl).1 (.str "t42") rfl

/-- C7: for any LLM output that fails JSON parsing, both prompt-generation
adapters return `success = true` with the warning set and with the
video-prompt and audio-prompt fields of `data` populated from the raw
model text; neither raises. -/
theorem C7_json_parse_fallback (loads : String → Option JVal) (userPrompt content : String)
    (hparse : loads content = none) :
    ((analyze_and_generate_prompts loads content).success = true ∧
      (analyze_and_generate_prompts loads content).warning =
        some "Response was not in expected JSON format" ∧
      ∃ d, (analyze_and_generate_prompts loads content).data = some d ∧
        dictGet d "video_prompt" .null = .ok (.str content) ∧
        dictGet d "audio_prompt" .null = .ok (.str content)) ∧
    ((analyze_pdf_content_and_generate_prompts loads userPrompt content).success = true ∧
      (analyze_pdf_content_and_generate_prompts loads userPrompt content).warning =
        some "Response was not in expected JSON format" ∧
      ∃ d, (analyze_pdf_content_and_generate_prompts loads userPrompt content).data = some d ∧
        dictGet d "video_prompt" .null = .ok (.str content) ∧
        dictGet d "audio_prompt" .null = .ok (.str content)) := by
  refine ⟨⟨?_, ?_, analysisFallbackData content, ?_, ?_, ?_⟩,
    ⟨?_, ?_, pdfFallbackData content userPrompt, ?_, ?_, ?_⟩⟩ <;>
    simp [analyze_and_generate_prompts, analyze_pdf_content_and_generate_prompts, hparse,
      analysisFallbackData, pdfFallbackData, dictGet, List.lookup]

/-- Witness for C7 at a parser that always fails. -/
theorem C7_witness :
    (analyze_and_generate_prompts (fun _ => none) "hello").success = true ∧
    (analyze_and_generate_prompts (fun _ => none) "hello").warning =
      some "Response was not in expected JSON format" ∧
    ∃ d, (analyze_and_generate_prompts (fun _ => none) "hello").data = some d ∧
      dictGet d "video_prompt" .null = .ok (.str "hello") ∧
      dictGet d "audio_prompt" .null = .ok (.str "hello") :=
  (C7_json_parse_fallback (fun _ => none) "up" "hello" rfl).1

/-- C10: whenever a non-empty `images` argument is supplied to
`create_video_task`, the submitted payload's model is silently overwritten
with the configured `VEO3_MODEL_FRAMES`, discarding the caller's `model`
argument (which the returned dict still reports); with `images` absent (or
empty, hence falsy) the caller's model is used unchanged. -/
theorem C10_frames_model_override (env : Option String) (p m : String) (e : Bool) :
    (∀ s, s ≠ "" →
      build_create_payload (veo3ModelFrames env) p m e (some s) =
        ⟨p, veo3ModelFrames env, e, some s⟩) ∧
    build_create_payload (veo3ModelFrames env) p m e none = ⟨p, m, e, none⟩ ∧
    build_create_payload (veo3ModelFrames env) p m e (some "") = ⟨p, m, e, none⟩ := by
  refine ⟨?_, rfl, rfl⟩
  intro s hs
  simp [build_create_payload, hs]

/-- Witness for C10 at a concrete image URL. -/
theorem C10_witness :
    build_create_payload (veo3ModelFrames none) "a cat" "veo3-quality" true
        (some "http://img") =
      ⟨"a cat", veo3ModelFrames none, true, some "http://img"⟩ :=
  (C10_frames_model_override none "a cat" "veo3-quality" true).1 "http://img" (by decide)

/-- Updates never touch the primary key. -/
theorem applyUpdate_id (s : VideoSession) (u : VideoSessionUpdate) :
    (applyUpdate s u).id = s.id := rfl

/-- Looking a session up after the commit of `update_video_session` finds
the updated row. -/
theorem get_video_session_map_update (db : SessionDb) (sid : Nat) (s' : VideoSession)
    (hid : s'.id = sid) :
    (∃ s, get_video_session db sid = some s) →
    get_video_session (db.map (fun r => if r.id == sid then s' else r)) sid = some s' := by
  induction db with
  | nil => intro ⟨s, hs⟩; simp [get_video_session] at hs
  | cons r t ih =>
    intro ⟨s, hs⟩
    by_cases hr : (r.id == sid) = true
    · have hp : (s'.id == sid) = true := by simp [hid]
      simp [get_video_session, List.map, hr, List.find?_cons_of_pos, hp]
    · have hs' : get_video_session t sid = some s := by
        simpa [get_video_session, List.find?_cons_of_neg, hr] using hs
      have := ih ⟨s, hs'⟩
      simpa [get_video_session, List.map, List.find?_cons_of_neg, hr] using this

/-- The commit of `update_video_session` on an existing session returns
the row with the update applied, and a subsequent lookup sees it. -/
theorem get_update_video_session {db : SessionDb} {sid : Nat} {s : VideoSession}
    (u : VideoSessionUpdate) (h : get_video_session db sid = some s) :
    (update_video_session db sid u).2 = some (applyUpdate s u) ∧
    get_video_session (update_video_session db sid u).1 sid = some (applyUpdate s u) := by
  have hid : (applyUpdate s u).id = sid := by
    rw [applyUpdate_id]
    have := List.find?_some h
    simpa using this
  constructor
  · simp [update_video_session, h]
  · simp only [update_video_session, h]
    exact get_video_session_map_update db sid (applyUpdate s u) hid ⟨s, h⟩

/-- C8 counterexample: the public update operation moves a PENDING session
straight to ACTIVE - a state outside the claimed machine and a transition
the claimed machine forbids - so status transitions are not restricted to
`PENDING → PROCESSING → \x7bCOMPLETED, FAILED\x7d`. -/
theorem C8_counterexample :
    (update_video_session [⟨1, .pending, none, none, 0⟩] 1
        ⟨some .active, none, none, none⟩).2 = some ⟨1, .active, none, none, 0⟩ ∧
    specTransition .pending .active = false := by
  refine ⟨by decide, by decide⟩

/-- C8 (amended): `update_video_session` enforces no state machine at
all - for every stored session and every update carrying a status, the
persisted status afterwards is exactly the requested status, whatever the
previous one (the five-member enum even includes `ACTIVE`, outside the
claimed machine); the `PENDING → PROCESSING → \x7bCOMPLETED, FAILED\x7d`
shape is only the happy path of the pipeline call sites, not an invariant
of the operation. -/
theorem C8_update_applies_any_status (db : SessionDb) (sid : Nat)
    (u : VideoSessionUpdate) (s : VideoSession) (st : VideoSessionStatus)
    (hfound : get_video_session db sid = some s) (hst : u.status = some st) :
    ∃ s', (update_video_session db sid u).2 = some s' ∧ s'.status = st ∧
      get_video_session (update_video_session db sid u).1 sid = some s' := by
  obtain ⟨h2, hget⟩ := get_update_video_session u hfound
  exact ⟨applyUpdate s u, h2, by simp [applyUpdate, hst], hget⟩

/-- Witness for C8 at a concrete PENDING session set to ACTIVE. -/
theorem C8_witness :
    ∃ s', (update_video_session [⟨1, .pending, none, none, 0⟩] 1
        ⟨some .active, none, none, none⟩).2 = some s' ∧ s'.status = .active ∧
      get_video_session (update_video_session [⟨1, .pending, none, none, 0⟩] 1
        ⟨some .active, none, none, none⟩).1 1 = some s' :=
  C8_update_applies_any_status [⟨1, .pending, none, none, 0⟩] 1
    ⟨some .active, none, none, none⟩ ⟨1, .pending, none, none, 0⟩ .active rfl rfl

/-- C9 counterexample: a 304 response is non-2xx, yet `raise_for_status`
does not raise below 400, so `download_video` writes the (empty) body in
place and reports success - a file is left at the destination path and no
download-error failure is returned. -/
theorem C9_counterexample :
    (download_video [] 7 "mp4" 304 []).2.success = true ∧
    fsGet (download_video [] 7 "mp4" 304 []).1 (get_video_file_path 7 "mp4") = some [] ∧
    304 > 299 := by
  refine ⟨by decide, by decide, by decide⟩

/-- C9 (amended): for a fetch answered with HTTP 404 - or any status of
at least 400, exactly the statuses `raise_for_status` raises on -
`download_video` returns a download-error failure and leaves the
filesystem untouched, so no file is left at the destination path.
(Non-2xx statuses below 400, such as 304, are instead written in place
and reported as success.) -/
theorem C9_download_error_no_file (fs : Fs) (videoId : Nat) (format : String)
    (st : Nat) (chunks : List (Except String (List Nat))) (hst : 400 ≤ st) :
    (download_video fs videoId format st chunks).2.success = false ∧
    (download_video fs videoId format st chunks).2.error =
      some ("Failed to download video: " ++ ("HTTP " ++ toString st)) ∧
    (download_video fs videoId format st chunks).1 = fs := by
  have h : raise_for_status st = .error ("HTTP " ++ toString st) := by
    simp [raise_for_status, hst]
  refine ⟨?_, ?_, ?_⟩ <;> simp [download_video, h]

/-- Witness for C9 at a concrete 404 fetch. -/
theorem C9_witness :
    (download_video [] 7 "mp4" 404 [.ok [1, 2]]).2.success = false ∧
    (download_video [] 7 "mp4" 404 [.ok [1, 2]]).2.error =
      some ("Failed to download video: " ++ ("HTTP " ++ toString 404)) ∧
    (download_video [] 7 "mp4" 404 [.ok [1, 2]]).1 = [] :=
  C9_download_error_no_file [] 7 "mp4" 404 [.ok [1, 2]] (by decide)

/-- A pdf stage fed by a non-raising service call reports stage success. -/
theorem pdfs_ok_status (combine : List PdfDoc → String) (docs : List PdfDoc) :
    (process_session_pdfs combine (.ok docs)).status = "success" := by
  cases docs <;> rfl

/-- Extraction count of a non-raising pdf stage. -/
theorem pdfs_ok_extractions (combine : List PdfDoc → String) (docs : List PdfDoc) :
    (process_session_pdfs combine (.ok docs)).successful_extractions =
      some (List.filter (fun doc => doc.status == "success") docs).length := by
  cases docs <;> simp [process_session_pdfs]

/-- An image stage fed by a non-raising service call reports stage
success. -/
theorem images_ok_status (ir : ImageServiceResult) :
    (process_session_images (.ok ir)).status = "success" := by
  by_cases hc : (ir.status == "success" && ir.has_image) = true <;>
    simp [process_session_images, hc]

/-- C2 counterexample: with the pdf service raising "boom" and the other
stages succeeding, the session is persisted as FAILED, but the pipeline's
returned result has top-level status "completed" and no top-level error -
the message "boom" appears only in the nested pdf stage result - so "the
returned result's error field is populated with the triggering exception's
message" is false as stated. -/
theorem C2_counterexample :
    (process_video_session (fun _ => "") [⟨1, .pending, none, none, 0⟩] 1 (some "p") none
        (.error "boom") (.ok ⟨"success", false, none⟩)
        (.ok ⟨true, some (.obj [("video_prompt", .str "v")]), some "raw", none, none⟩)).2.status
      = "completed" ∧
    (process_video_session (fun _ => "") [⟨1, .pending, none, none, 0⟩] 1 (some "p") none
        (.error "boom") (.ok ⟨"success", false, none⟩)
        (.ok ⟨true, some (.obj [("video_prompt", .str "v")]), some "raw", none, none⟩)).2.error
      = none ∧
    ((process_video_session (fun _ => "") [⟨1, .pending, none, none, 0⟩] 1 (some "p") none
        (.error "boom") (.ok ⟨"success", false, none⟩)
        (.ok ⟨true, some (.obj [("video_prompt", .str "v")]), some "raw", none,
          none⟩)).2.pdf_processing).map (fun pr => pr.error) = some (some "boom") ∧
    (get_video_session
        (process_video_session (fun _ => "") [⟨1, .pending, none, none, 0⟩] 1 (some "p") none
          (.error "boom") (.ok ⟨"success", false, none⟩)
          (.ok ⟨true, some (.obj [("video_prompt", .str "v")]), some "raw", none,
            none⟩)).1 1).map (fun s => s.status) = some .failed := by
  refine ⟨by decide, by decide, by decide, by decide⟩

/-- C2 (amended): when the session exists, every stage succeeds and the
AI result carries a data object, the persisted status is COMPLETED and
`processed_files` equals the number of successfully extracted documents,
and the pipeline returns top-level status "completed".  When a stage fails
in a way its stage helper catches (pdf service raising), the persisted
status is FAILED, but the returned result still has top-level status
"completed" with no top-level error - the triggering message appears only
in the nested stage result.  A top-level "failed" return with a populated
error arises only when an exception escapes the orchestration body: a
missing session (error = the not-found message), or result assembly
raising an AttributeError because the AI result's `data` is not a JSON
object - `None` or any non-dict JSON value - and then the error is the
AttributeError text, not the stage's own message, and the persisted
status is FAILED as well. -/
theorem C2_session_persistence (combine : List PdfDoc → String) (db : SessionDb) (sid : Nat)
    (up cat : Option String) :
    (∀ (sess : VideoSession) (docs : List PdfDoc) (ir : ImageServiceResult)
        (r : PromptResult) (dfs : List (String × JVal)),
      get_video_session db sid = some sess → r.success = true →
      r.data = some (.obj dfs) →
      ∃ s', get_video_session
          (process_video_session combine db sid up cat (.ok docs) (.ok ir) (.ok r)).1 sid
            = some s' ∧
        s'.status = .completed ∧
        s'.processed_files = (List.filter (fun doc => doc.status == "success") docs).length ∧
        (process_video_session combine db sid up cat (.ok docs) (.ok ir) (.ok r)).2.status
          = "completed" ∧
        (process_video_session combine db sid up cat (.ok docs) (.ok ir) (.ok r)).2.error
          = none) ∧
    (∀ (sess : VideoSession) (m : String) (imgRaw : Except String ImageServiceResult)
        (aiRaw : Except String PromptResult) (dfs : List (String × JVal)),
      get_video_session db sid = some sess →
      (generate_ai_prompts aiRaw).data = some (.obj dfs) →
      ∃ s', get_video_session
          (process_video_session combine db sid up cat (.error m) imgRaw aiRaw).1 sid
            = some s' ∧
        s'.status = .failed ∧
        (process_video_session combine db sid up cat (.error m) imgRaw aiRaw).2.status
          = "completed" ∧
        (process_video_session combine db sid up cat (.error m) imgRaw aiRaw).2.error = none ∧
        ((process_video_session combine db sid up cat (.error m) imgRaw aiRaw).2.pdf_processing).map
          (fun pr => pr.error) = some (some m)) ∧
    (get_video_session db sid = none →
      ∀ (pdfRaw : Except String (List PdfDoc)) (imgRaw : Except String ImageServiceResult)
        (aiRaw : Except String PromptResult),
        (process_video_session combine db sid up cat pdfRaw imgRaw aiRaw).2.status = "failed" ∧
        (process_video_session combine db sid up cat pdfRaw imgRaw aiRaw).2.error =
          some ("Video session " ++ toString sid ++ " not found") ∧
        (process_video_session combine db sid up cat pdfRaw imgRaw aiRaw).1 = db) ∧
    (∀ (sess : VideoSession) (pdfRaw : Except String (List PdfDoc))
        (imgRaw : Except String ImageServiceResult) (aiRaw : Except String PromptResult),
      get_video_session db sid = some sess →
      (∀ fs, (generate_ai_prompts aiRaw).data ≠ some (JVal.obj fs)) →
      (process_video_session combine db sid up cat pdfRaw imgRaw aiRaw).2.status = "failed" ∧
      (process_video_session combine db sid up cat pdfRaw imgRaw aiRaw).2.error =
        some "AttributeError: object has no attribute get" ∧
      ∃ s', get_video_session
          (process_video_session combine db sid up cat pdfRaw imgRaw aiRaw).1 sid = some s' ∧
        s'.status = .failed) := by
  refine ⟨?_, ?_, ?_, ?_⟩
  · intro sess docs ir r dfs hsess hsucc hdata
    have hpdfstat := pdfs_ok_status combine docs
    have himgstat := images_ok_status ir
    have hext := pdfs_ok_extractions combine docs
    obtain ⟨hu1, hg1⟩ := @get_update_video_session db sid sess
      ⟨some VideoSessionStatus.completed,
        some (strOr up (strOr sess.user_prompt "Create a video based on the uploaded documents")),
        (cat).orElse (fun _ => sess.category),
        some (List.filter (fun doc => doc.status == "success") docs).length⟩ hsess
    refine ⟨applyUpdate sess
        ⟨some VideoSessionStatus.completed,
          some (strOr up (strOr sess.user_prompt "Create a video based on the uploaded documents")),
          (cat).orElse (fun _ => sess.category),
          some (List.filter (fun doc => doc.status == "success") docs).length⟩,
      ?_, by simp [applyUpdate], by simp [applyUpdate], ?_, ?_⟩
    · simp [process_video_session, hsess, update_session_with_results,
        generate_ai_prompts, hdata, hsucc, hpdfstat, himgstat, hext, hu1, hg1, dictGet]
    · simp [process_video_session, hsess, update_session_with_results,
        generate_ai_prompts, hdata, hsucc, hpdfstat, himgstat, hext, hu1, dictGet]
    · simp [process_video_session, hsess, update_session_with_results,
        generate_ai_prompts, hdata, hsucc, hpdfstat, himgstat, hext, hu1, dictGet]
  · intro sess m imgRaw aiRaw dfs hsess hdata
    obtain ⟨hu1, hg1⟩ := @get_update_video_session db sid sess
      ⟨some VideoSessionStatus.failed,
        some (strOr up (strOr sess.user_prompt "Create a video based on the uploaded documents")),
        (cat).orElse (fun _ => sess.category), some 0⟩ hsess
    refine ⟨applyUpdate sess
        ⟨some VideoSessionStatus.failed,
          some (strOr up (strOr sess.user_prompt "Create a video based on the uploaded documents")),
          (cat).orElse (fun _ => sess.category), some 0⟩,
      ?_, by simp [applyUpdate], ?_, ?_, ?_⟩
    · simp [process_video_session, hsess, update_session_with_results,
        hdata, process_session_pdfs, hu1, hg1, dictGet]
    · simp [process_video_session, hsess, update_session_with_results,
        hdata, process_session_pdfs, hu1, dictGet]
    · simp [process_video_session, hsess, update_session_with_results,
        hdata, process_session_pdfs, hu1, dictGet]
    · simp [process_video_session, hsess, update_session_with_results,
        hdata, process_session_pdfs, hu1, dictGet]
  · intro hnone pdfRaw imgRaw aiRaw
    refine ⟨?_, ?_, ?_⟩ <;>
      simp [process_video_session, hnone, update_video_session]
  · intro sess pdfRaw imgRaw aiRaw hsess hnobj
    have hraise : dictGet
        (match (generate_ai_prompts aiRaw).data with
          | none => JVal.null
          | some d => d) "video_prompt" (.str "") =
        .error "AttributeError: object has no attribute get" := by
      cases hd : (generate_ai_prompts aiRaw).data with
      | none => simp [dictGet]
      | some d =>
        cases d with
        | obj fs => exact absurd hd (hnobj fs)
        | null => simp [dictGet]
        | bool b => simp [dictGet]
        | int n => simp [dictGet]
        | str v => simp [dictGet]
        | arr xs => simp [dictGet]
    obtain ⟨hu1, hg1⟩ := @get_update_video_session db sid sess
      ⟨some (if (process_session_pdfs combine pdfRaw).status == "success" &&
          (process_session_images imgRaw).status == "success" &&
          (generate_ai_prompts aiRaw).success then VideoSessionStatus.completed else .failed),
        some (strOr up (strOr sess.user_prompt "Create a video based on the uploaded documents")),
        (cat).orElse (fun _ => sess.category),
        some ((process_session_pdfs combine pdfRaw).successful_extractions.getD 0)⟩ hsess
    obtain ⟨hu2, hg2⟩ :=
      get_update_video_session (⟨some .failed, none, none, none⟩ : VideoSessionUpdate) hg1
    refine ⟨?_, ?_,
      applyUpdate (applyUpdate sess
        ⟨some (if (process_session_pdfs combine pdfRaw).status == "success" &&
            (process_session_images imgRaw).status == "success" &&
            (generate_ai_prompts aiRaw).success then VideoSessionStatus.completed else .failed),
          some (strOr up (strOr sess.user_prompt "Create a video based on the uploaded documents")),
          (cat).orElse (fun _ => sess.category),
          some ((process_session_pdfs combine pdfRaw).successful_extractions.getD 0)⟩)
        ⟨some .failed, none, none, none⟩,
      ?_, by simp [applyUpdate]⟩
    · simp [process_video_session, hsess, update_session_with_results, hraise, hu1]
    · simp [process_video_session, hsess, update_session_with_results, hraise, hu1]
    · simp at hu1 hg2
      simp [process_video_session, hsess, update_session_with_results, hraise, hu1, hg2]

/-- Witness for C2 at a concrete fully successful run. -/
theorem C2_witness :
    ∃ s', get_video_session
        (process_video_session (fun _ => "text") [⟨1, .pending, none, none, 0⟩] 1 (some "p")
          none (.ok [⟨"success", "txt"⟩]) (.ok ⟨"success", false, none⟩)
          (.ok ⟨true, some (.obj [("video_prompt", .str "v")]), some "raw", none, none⟩)).1 1
        = some s' ∧
      s'.status = .completed ∧
      s'.processed_files =
        (List.filter (fun doc => doc.status == "success") [(⟨"success", "txt"⟩ : PdfDoc)]).length ∧
      (process_video_session (fun _ => "text") [⟨1, .pending, none, none, 0⟩] 1 (some "p")
          none (.ok [⟨"success", "txt"⟩]) (.ok ⟨"success", false, none⟩)
          (.ok ⟨true, some (.obj [("video_prompt", .str "v")]), some "raw", none, none⟩)).2.status
        = "completed" ∧
      (process_video_session (fun _ => "text") [⟨1, .pending, none, none, 0⟩] 1 (some "p")
          none (.ok [⟨"success", "txt"⟩]) (.ok ⟨"success", false, none⟩)
          (.ok ⟨true, some (.obj [("video_prompt", .str "v")]), some "raw", none, none⟩)).2.error
        = none :=
  (C2_session_persistence (fun _ => "text") [⟨1, .pending, none, none, 0⟩] 1 (some "p") none).1
    ⟨1, .pending, none, none, 0⟩ [⟨"success", "txt"⟩] ⟨"success", false, none⟩
    ⟨true, some (.obj [("video_prompt", .str "v")]), some "raw", none, none⟩
    [("video_prompt", .str "v")] rfl rfl rfl
